import Mathlib

/-!
Verification of the MAPE-K controller of the Self-Adaptive-Music-System
repository (driver + mapek).  The Python modules `Analyzer.py`, `Planner.py`,
`Executor.py` and `Monitor.py` are shallowly embedded below: numbers become
exact rationals, Python sets of string tags become duplicate-free lists built
in program order, the `collections.deque(maxlen=5)` sliding windows become
lists with explicit FIFO eviction, and the Executor's subprocess calls become
an explicit command trace against an abstract environment.
-/

namespace SAMS

/-! ## Analyzer embedding (src/driver/mapek/Analyzer.py) -/

/-- `Analyzer.__init__`: `self.window_size = 5`. -/
def windowSize : Nat := 5

/-- `deque(maxlen=5).append(x)`: the new sample goes to the right and, when
the deque is full, the oldest (leftmost) sample is evicted. -/
def dequeAppend (d : List ℚ) (x : ℚ) : List ℚ :=
  let d2 := d ++ [x]
  d2.drop (d2.length - windowSize)

/-- `sum(deque) / len(deque)` — the arithmetic mean of the samples held. -/
def listMean (d : List ℚ) : ℚ :=
  d.sum / (d.length : ℚ)

/-- QoS/QoE thresholds read from Knowledge (`Analyzer.__init__`). -/
structure Thresholds where
  cpu_high : ℚ
  cpu_low : ℚ
  memory_high : ℚ
  memory_low : ℚ
  latency_avg : ℚ
  latency_max : ℚ
  error_rate : ℚ
  playback_high : ℚ
  playback_low : ℚ
  download_high : ℚ
  download_low : ℚ
  cache_hit_low : ℚ
  disk_usage : ℚ

/-- QoS utility weights (`Analyzer.__init__`). -/
structure Weights where
  cpu : ℚ
  memory : ℚ
  latency : ℚ
  error_rate : ℚ

/-- The eight per-service sliding windows (`self.service_deque[svc]`). -/
structure ServiceDeques where
  cpu_deque : List ℚ
  memory_deque : List ℚ
  latency_avg_deque : List ℚ
  error_rate_deque : List ℚ
  disk_usage : List ℚ
  cache_hit : List ℚ
  avg_playback_latency : List ℚ
  avg_download_time : List ℚ

/-- The scalar arguments of `Analyzer._evaluate_metrics`. -/
structure EvalInput where
  cpu : ℚ
  memory : ℚ
  latency_avg : ℚ
  latency_max : ℚ
  request_count : ℚ
  request_per_second : ℚ
  request_byte_total : ℚ
  error_rate : ℚ
  available_replicas : ℚ
  disk_usage : ℚ
  cache_hit : ℚ
  avg_playback_latency : ℚ
  avg_download_time : ℚ

/-- The `result` dictionary built by `Analyzer._evaluate_metrics`.  The two
unhealthy sets are modelled as lists in the order the Python code adds the
tags; every tag is added at most once, so list length equals set size. -/
structure AnalysisResult where
  cpu : ℚ
  memory : ℚ
  latency_avg : ℚ
  latency_max : ℚ
  request_count : ℚ
  request_per_second : ℚ
  request_byte_total : ℚ
  error_rate : ℚ
  available_replicas : ℚ
  disk_usage : ℚ
  cache_hit : ℚ
  avg_playback_latency : ℚ
  avg_download_time : ℚ
  qos_overall_utility : ℚ
  adaptation : List String
  qos_unhealthy_metrics : List String
  qoe_unhealthy_metrics : List String
deriving DecidableEq

/-- `Analyzer._normalize_high_is_good`. -/
def normalize_high_is_good (low high value : ℚ) : ℚ :=
  (value - low) / (high - low)

/-- `Analyzer._normalize_low_is_good`. -/
def normalize_low_is_good (high value : ℚ) : ℚ :=
  max 0 (1 - min (value / high) 1)

/-- The QoS health flags (`_evaluate_metrics`, "Local QoS health" block),
in the order the code adds them to the `qos_unhealthy` set. -/
def qosFlags (th : Thresholds) (cpu_avg memory_avg latency_avg_avg error_rate_avg
    available_replicas : ℚ) : List String :=
  (if cpu_avg > th.cpu_high then ["cpu_high"]
   else if cpu_avg < th.cpu_low then ["cpu_low"] else []) ++
  (if memory_avg > th.memory_high then ["memory_high"]
   else if memory_avg < th.memory_low then ["memory_low"] else []) ++
  (if latency_avg_avg > th.latency_avg then ["latency_avg_high"] else []) ++
  (if error_rate_avg > th.error_rate then ["error_rate_high"] else []) ++
  (if available_replicas ≤ 0 then ["no_replicas"] else [])

/-- The QoE health flags (`_evaluate_metrics`, "Local QoE health" block). -/
def qoeFlags (th : Thresholds) (avg_playback_latency_avg avg_download_time_avg
    cache_hit_avg disk_usage_avg : ℚ) : List String :=
  (if avg_playback_latency_avg > th.playback_high then ["playback_latency_high"]
   else if avg_playback_latency_avg < th.playback_low then ["playback_latency_low"] else []) ++
  (if avg_download_time_avg > th.download_high then ["download_time_high"]
   else if avg_download_time_avg < th.download_low then ["download_time_low"] else []) ++
  (if cache_hit_avg < th.cache_hit_low then ["cache_hit_low"] else []) ++
  (if disk_usage_avg > th.disk_usage then ["disk_usage_high"] else [])

/-- The "Adaptation flags" block of `_evaluate_metrics`: `self_heal` when
`no_replicas` was flagged, then the QoE verdict, then the QoS tier. -/
def adaptationTags (qos_unhealthy qoe_unhealthy : List String) (qos_utility : ℚ) :
    List String :=
  (if "no_replicas" ∈ qos_unhealthy then ["self_heal"] else []) ++
  (if qoe_unhealthy ≠ [] then ["qoe_unhealthy"] else ["qoe_healthy"]) ++
  (if qos_utility ≥ 0.8 ∧ qos_unhealthy.length = 0 then ["qos_healthy"]
   else if qos_utility < 0.5 ∨ 2 ≤ qos_unhealthy.length then ["qos_unhealthy"]
   else ["qos_warning"])

/-- `Analyzer._evaluate_metrics`: append each sample to its window, take the
windowed means, compute the utility, flag QoS/QoE health, and compose the
verdict.  Returns the result record together with the updated windows. -/
def evaluate_metrics (th : Thresholds) (w : Weights) (d : ServiceDeques)
    (inp : EvalInput) : AnalysisResult × ServiceDeques :=
  let cpu_win := dequeAppend d.cpu_deque inp.cpu
  let memory_win := dequeAppend d.memory_deque inp.memory
  let latency_win := dequeAppend d.latency_avg_deque (inp.latency_avg / 1000000)
  let error_win := dequeAppend d.error_rate_deque inp.error_rate
  let disk_win := dequeAppend d.disk_usage inp.disk_usage
  let cache_win := dequeAppend d.cache_hit inp.cache_hit
  let playback_win := dequeAppend d.avg_playback_latency inp.avg_playback_latency
  let download_win := dequeAppend d.avg_download_time inp.avg_download_time
  let cpu_avg := listMean cpu_win
  let memory_avg := listMean memory_win
  let latency_avg_avg := listMean latency_win
  let error_rate_avg := listMean error_win
  let disk_usage_avg := listMean disk_win
  let cache_hit_avg := listMean cache_win
  let avg_playback_latency_avg := listMean playback_win
  let avg_download_time_avg := listMean download_win
  let qos_utility :=
    normalize_high_is_good th.cpu_low th.cpu_high cpu_avg * w.cpu +
    normalize_high_is_good th.memory_low th.memory_high memory_avg * w.memory +
    normalize_low_is_good th.latency_avg latency_avg_avg * w.latency +
    normalize_low_is_good th.error_rate error_rate_avg * w.error_rate
  let qos_unhealthy := qosFlags th cpu_avg memory_avg latency_avg_avg error_rate_avg
    inp.available_replicas
  let qoe_unhealthy := qoeFlags th avg_playback_latency_avg avg_download_time_avg
    cache_hit_avg disk_usage_avg
  (⟨cpu_avg, memory_avg, latency_avg_avg, inp.latency_max, inp.request_count,
    inp.request_per_second, inp.request_byte_total, error_rate_avg,
    inp.available_replicas, disk_usage_avg, cache_hit_avg,
    avg_playback_latency_avg, avg_download_time_avg, qos_utility,
    adaptationTags qos_unhealthy qoe_unhealthy qos_utility,
    qos_unhealthy, qoe_unhealthy⟩,
   ⟨cpu_win, memory_win, latency_win, error_win, disk_win, cache_win,
    playback_win, download_win⟩)

/-! ## Monitor / process_data embedding
(src/driver/mapek/Monitor.py, src/driver/mapek/Analyzer.py lines 230-238) -/

/-- The JSON record served by the application metrics endpoint:
`disk_usage` (%), `cache_hit_ratio` as the pair of counts [hits, misses],
`avg_playback_latency` (s), `avg_download_time` (s). -/
structure QoERecord where
  disk_usage : ℚ
  cache_hits : ℕ
  cache_misses : ℕ
  avg_playback_latency : ℚ
  avg_download_time : ℚ
deriving DecidableEq

/-- Outcome of the HTTP GET inside `Monitor.fetch_data_from_cartunes`:
either a parsed record or a `requests.exceptions.RequestException`. -/
inductive FetchOutcome where
  | ok (r : QoERecord)
  | networkError
deriving DecidableEq

/-- `Monitor.fetch_data_from_cartunes`: on success the parsed record is
returned unchanged; on a network error the handler logs and returns `None`. -/
def fetch_data_from_cartunes : FetchOutcome → Option QoERecord
  | .ok r => some r
  | .networkError => none

/-- The cache-hit value `Analyzer.process_data` computes (lines 235-238):
`if qoe_data["cache_hit_ratio"][0] or qoe_data["cache_hit_ratio"][1] == 0`
(Python parses this as `hits or (misses == 0)`, and a count is truthy exactly
when it is nonzero) forces `0`; otherwise `hits / (hits + misses) * 100`. -/
def process_data_cache_hit (hits misses : ℕ) : ℚ :=
  if hits ≠ 0 ∨ misses = 0 then 0
  else ((hits : ℚ) / ((hits : ℚ) + (misses : ℚ))) * 100

/-- The QoE arguments `process_data` extracts for `_evaluate_metrics`
(disk usage, cache hit, playback latency, download time).  Subscripting a
`None` record (`qoe_data["disk_usage"]`) raises a `TypeError` that aborts the
cycle, modelled as `none`. -/
def process_data_qoe_inputs : Option QoERecord → Option (ℚ × ℚ × ℚ × ℚ)
  | none => none
  | some q => some (q.disk_usage, process_data_cache_hit q.cache_hits q.cache_misses,
      q.avg_playback_latency, q.avg_download_time)

/-! ## Planner embedding (src/driver/mapek/Planner.py) -/

/-- The per-service resource configuration dictionary. -/
structure ResourceConfig where
  requests_cpu : ℚ
  requests_memory : ℚ
  limits_cpu : ℚ
  limits_memory : ℚ
  replica : ℚ
  song_quality : ℚ
  cache_size : ℚ
  preload_song : ℚ
deriving DecidableEq

/-- `Planner.__init__`: the global bounds from `resources_limitations["single"]`
and the ROI threshold from Knowledge. -/
structure PlannerParams where
  min_replica : ℚ
  max_replica : ℚ
  min_cpu : ℚ
  max_cpu : ℚ
  min_memory : ℚ
  max_memory : ℚ
  roi_threshold : ℚ
deriving DecidableEq

/-- `_adopt_qos_warning_situation`, "situation of increasing cpu". -/
def warning_cpu_up (p : PlannerParams) (un : List String) (c : ResourceConfig) :
    ResourceConfig :=
  if "cpu_high" ∈ un ∧ "latency_avg_high" ∈ un then
    { c with limits_cpu := min (c.limits_cpu + 250) p.max_cpu } else c

/-- `_adopt_qos_warning_situation`, "situation of increasing memory". -/
def warning_memory_up (p : PlannerParams) (un : List String) (c : ResourceConfig) :
    ResourceConfig :=
  if "memory_high" ∈ un then
    { c with limits_memory := min (c.limits_memory + 256) p.max_memory } else c

/-- `_adopt_qos_warning_situation`, "situation of decreasing CPU". -/
def warning_cpu_down (p : PlannerParams) (un : List String) (c : ResourceConfig) :
    ResourceConfig :=
  if "cpu_low" ∈ un then
    { c with limits_cpu := max (c.limits_cpu - 250) p.min_cpu } else c

/-- `_adopt_qos_warning_situation`, "situation of decreasing memory". -/
def warning_memory_down (p : PlannerParams) (un : List String) (c : ResourceConfig) :
    ResourceConfig :=
  if "memory_low" ∈ un then
    { c with limits_memory := max (c.limits_memory - 256) p.min_memory } else c

/-- `_adopt_qos_warning_situation`, "situation of increasing replica". -/
def warning_replica_up (p : PlannerParams) (un : List String) (c : ResourceConfig) :
    ResourceConfig :=
  if (c.limits_cpu ≥ p.max_cpu ∨ c.limits_memory ≥ p.max_memory) ∧
      ("latency_avg_high" ∈ un ∨ "error_rate_high" ∈ un) then
    { c with replica := min (c.replica + 1) p.max_replica } else c

/-- `_adopt_qos_warning_situation`, "situation of decreasing replica". -/
def warning_replica_down (p : PlannerParams) (un : List String) (c : ResourceConfig) :
    ResourceConfig :=
  if "cpu_low" ∈ un ∧ "memory_low" ∈ un then
    { c with replica := max (c.replica - 1) p.min_replica } else c

/-- `Planner._adopt_qos_warning_situation`: limits-only vertical scaling plus
replica adjustments, the six if-blocks applied in program order. -/
def adopt_qos_warning_situation (p : PlannerParams) (un : List String)
    (c0 : ResourceConfig) : ResourceConfig :=
  warning_replica_down p un (warning_replica_up p un (warning_memory_down p un
    (warning_cpu_down p un (warning_memory_up p un (warning_cpu_up p un c0)))))

/-- `_adopt_qos_unhealthy_situation`, "situation of increasing cpu". -/
def unhealthy_cpu_up (p : PlannerParams) (un : List String) (c : ResourceConfig) :
    ResourceConfig :=
  if "cpu_high" ∈ un ∧ "latency_avg_high" ∈ un then
    { c with requests_cpu := min (c.requests_cpu + 250) p.max_cpu,
             limits_cpu := min (c.limits_cpu + 250) p.max_cpu } else c

/-- `_adopt_qos_unhealthy_situation`, "situation of increasing memory". -/
def unhealthy_memory_up (p : PlannerParams) (un : List String) (c : ResourceConfig) :
    ResourceConfig :=
  if "memory_high" ∈ un then
    { c with requests_memory := min (c.requests_memory + 256) p.max_memory,
             limits_memory := min (c.limits_memory + 256) p.max_memory } else c

/-- `_adopt_qos_unhealthy_situation`, "situation of decreasing CPU". -/
def unhealthy_cpu_down (p : PlannerParams) (un : List String) (c : ResourceConfig) :
    ResourceConfig :=
  if "cpu_low" ∈ un then
    { c with requests_cpu := max (c.requests_cpu - 250) p.min_cpu,
             limits_cpu := max (c.limits_cpu - 250) p.min_cpu } else c

/-- `_adopt_qos_unhealthy_situation`, "situation of decreasing memory". -/
def unhealthy_memory_down (p : PlannerParams) (un : List String) (c : ResourceConfig) :
    ResourceConfig :=
  if "memory_low" ∈ un then
    { c with requests_memory := max (c.requests_memory - 256) p.min_memory,
             limits_memory := max (c.limits_memory - 256) p.min_memory } else c

/-- `_adopt_qos_unhealthy_situation`, "situation of increasing replica". -/
def unhealthy_replica_up (p : PlannerParams) (un : List String) (c : ResourceConfig) :
    ResourceConfig :=
  if ("latency_avg_high" ∈ un ∨ "error_rate_high" ∈ un) ∧
      ("cpu_high" ∈ un ∨ "memory_high" ∈ un) then
    { c with replica := min (c.replica + 1) p.max_replica } else c

/-- `_adopt_qos_unhealthy_situation`, "situation of decreasing replica". -/
def unhealthy_replica_down (p : PlannerParams) (un : List String) (c : ResourceConfig) :
    ResourceConfig :=
  if "cpu_low" ∈ un ∧ "memory_low" ∈ un then
    { c with replica := max (c.replica - 1) p.min_replica } else c

/-- `Planner._adopt_qos_unhealthy_situation`: requests and limits move
together, plus replica adjustments, the six if-blocks in program order. -/
def adopt_qos_unhealthy_situation (p : PlannerParams) (un : List String)
    (c0 : ResourceConfig) : ResourceConfig :=
  unhealthy_replica_down p un (unhealthy_replica_up p un (unhealthy_memory_down p un
    (unhealthy_cpu_down p un (unhealthy_memory_up p un (unhealthy_cpu_up p un c0)))))

/-- `_adopt_qoe_unhealthy_situation`, "situation of decreasing song quality". -/
def qoe_song_down (un : List String) (c : ResourceConfig) : ResourceConfig :=
  if "playback_latency_high" ∈ un ∧ "download_time_high" ∈ un then
    { c with song_quality := max (c.song_quality - 1) 1 } else c

/-- `_adopt_qoe_unhealthy_situation`, "situation of increasing song quality". -/
def qoe_song_up (un : List String) (c : ResourceConfig) : ResourceConfig :=
  if "playback_latency_low" ∈ un ∧ "download_time_low" ∈ un then
    { c with song_quality := min (c.song_quality + 1) 3 } else c

/-- `_adopt_qoe_unhealthy_situation`, "situation of decreasing cache size"
(the flag `cache_hit_high` is never produced by the Analyzer). -/
def qoe_cache_down (un : List String) (c : ResourceConfig) : ResourceConfig :=
  if "cache_hit_high" ∈ un then
    { c with cache_size := c.cache_size - 100 } else c

/-- `_adopt_qoe_unhealthy_situation`, "situation of increasing cache size"
(no upper bound is applied). -/
def qoe_cache_up (un : List String) (c : ResourceConfig) : ResourceConfig :=
  if "cache_hit_low" ∈ un then
    { c with cache_size := c.cache_size + 500 } else c

/-- `_adopt_qoe_unhealthy_situation`, "situation of decreasing preload song". -/
def qoe_preload_down (un : List String) (c : ResourceConfig) : ResourceConfig :=
  if "download_time_high" ∈ un ∧ "cache_hit_low" ∈ un then
    { c with preload_song := max (c.preload_song - 2) 0 } else c

/-- `_adopt_qoe_unhealthy_situation`, "situation of increasing preload song". -/
def qoe_preload_up (un : List String) (c : ResourceConfig) : ResourceConfig :=
  if "download_time_low" ∈ un then
    { c with preload_song := min (c.preload_song + 2) 10 } else c

/-- `Planner._adopt_qoe_unhealthy_situation`: song-quality, cache-size and
preload-song knob moves, the six if-blocks in program order.  Only song
quality and preload depth are clamped; cache size is unbounded. -/
def adopt_qoe_unhealthy_situation (un : List String) (c0 : ResourceConfig) :
    ResourceConfig :=
  qoe_preload_up un (qoe_preload_down un (qoe_cache_up un (qoe_cache_down un
    (qoe_song_up un (qoe_song_down un c0)))))

/-- A candidate CPU setting considered by the Pareto search. -/
structure Candidate where
  cpu_after : ℚ
  latency_after : ℚ
  config : ResourceConfig
deriving DecidableEq

/-- `c2` dominates `c1` on (CPU, post-change latency), as in
`Planner._pareto_frontier`. -/
def dominates (c2 c1 : Candidate) : Bool :=
  c2.cpu_after ≤ c1.cpu_after ∧ c2.latency_after ≤ c1.latency_after ∧
    (c2.cpu_after < c1.cpu_after ∨ c2.latency_after < c1.latency_after)

/-- `Planner._pareto_frontier`: keep the candidates not dominated by another
candidate.  (Self-domination is impossible because it needs a strict
inequality, so quantifying over list members matches the index-based loop.) -/
def pareto_frontier (l : List Candidate) : List Candidate :=
  l.filter (fun c1 => ¬ l.any (fun c2 => dominates c2 c1))

/-- The ROI computed for one Pareto candidate inside the selection loop of
`Planner._decide_action` (`new_memory`/`new_replica` are taken from the
post-adoption config, not from the candidate). -/
def loop_roi (old_cpu old_memory old_replica cpu_now new_memory new_replica : ℚ)
    (item : Candidate) : ℚ :=
  let new_cpu := item.cpu_after
  let cpu_cost := if old_cpu ≠ 0 then |(new_cpu - old_cpu) / old_cpu| else 0
  let mem_cost := if old_memory ≠ 0 then |(new_memory - old_memory) / old_memory| else 0
  let replica_cost := if old_replica ≠ 0 then |(new_replica - old_replica) / old_replica| else 0
  let total_cost := 0.4 * cpu_cost + 0.4 * mem_cost + 0.2 * replica_cost
  let benefit := if old_cpu ≠ 0 then (cpu_now - new_cpu) / old_cpu else 0
  |benefit| / (total_cost + 1 / 1000000)

/-- The `best` / `best_roi` selection loop of `Planner._decide_action`:
starting from `(None, -1)`, keep the first candidate attaining the maximal
ROI (strict improvement replaces). -/
def select_best (r : Candidate → ℚ) (l : List Candidate) :
    Option ResourceConfig × ℚ :=
  l.foldl (fun acc item => if r item > acc.2 then (some item.config, r item) else acc)
    ((none : Option ResourceConfig), (-1 : ℚ))

/-- The candidate CPU settings of `Planner._decide_action`: deltas
−250/0/+250 on the current CPU midpoint, clamped to the Knowledge bounds,
with the proportional latency model and requests = limits = the new CPU. -/
def cpu_candidates (p : PlannerParams) (cpu_now latency_now : ℚ)
    (cfg1 : ResourceConfig) : List Candidate :=
  [(-250 : ℚ), 0, 250].map (fun delta =>
    let new_cpu := max p.min_cpu (min p.max_cpu (cpu_now + delta))
    { cpu_after := new_cpu,
      latency_after := latency_now * (cpu_now / new_cpu),
      config := { cfg1 with limits_cpu := new_cpu, requests_cpu := new_cpu } })

/-- The Pareto + ROI tail of `Planner._decide_action` (after the self-heal,
QoE and QoS-adoption branches): enumerate CPU candidates, keep the Pareto
frontier, pick the best-ROI candidate (`best if best is not None`), then
compute the final ROI of the chosen config against the pre-cycle config.
Returns (roi, new_config). -/
def qos_tail (p : PlannerParams) (latency_now : ℚ) (config cfg1 : ResourceConfig) :
    ℚ × ResourceConfig :=
  let old_cpu := (config.requests_cpu + config.limits_cpu) / 2
  let cpu_now := (cfg1.requests_cpu + cfg1.limits_cpu) / 2
  let frontier := pareto_frontier (cpu_candidates p cpu_now latency_now cfg1)
  let old_memory := (config.requests_memory + config.limits_memory) / 2
  let old_replica := config.replica
  let best := select_best
    (loop_roi old_cpu old_memory old_replica cpu_now cfg1.requests_memory cfg1.replica)
    frontier
  let new_config := best.1.getD cfg1
  let new_cpu := (new_config.requests_cpu + new_config.limits_cpu) / 2
  let new_memory := (new_config.requests_memory + new_config.limits_memory) / 2
  let new_replica := new_config.replica
  let cpu_cost := if old_cpu ≠ 0 then |(new_cpu - old_cpu) / old_cpu| else 0
  let mem_cost := if old_memory ≠ 0 then |(new_memory - old_memory) / old_memory| else 0
  let replica_cost := if old_replica ≠ 0 then |(new_replica - old_replica) / old_replica| else 0
  let total_cost := 0.4 * cpu_cost + 0.4 * mem_cost + 0.2 * replica_cost
  let benefit := 0.5 * (if old_cpu ≠ 0 then (new_cpu - old_cpu) / old_cpu else 0) +
      0.5 * (if old_memory ≠ 0 then (new_memory - old_memory) / old_memory else 0)
  let roi := |benefit| / (total_cost + 1 / 1000000)
  (roi, new_config)

/-- `Planner._decide_action`: self-heal first (ROI never applies), then the
QoE adjustment, then the QoS warning/unhealthy adoption, then the early
return for a pure QoE move, the healthy no-op, and finally the Pareto + ROI
gate.  `none` models the Python return `(None, None)`. -/
def decide_action (p : PlannerParams) (ar : AnalysisResult) (config : ResourceConfig) :
    Option (String × ResourceConfig) :=
  let base := ar.adaptation
  if "self_heal" ∈ base then
    some (if "no_replicas" ∈ ar.qos_unhealthy_metrics then "self_heal_hard"
          else "self_heal_soft", config)
  else
    let qoe_fixed := "qoe_unhealthy" ∈ base
    let situation0 := if "qoe_unhealthy" ∈ base then "qoe_unhealthy" else ""
    let cfg0 := if "qoe_unhealthy" ∈ base then
        adopt_qoe_unhealthy_situation ar.qoe_unhealthy_metrics config else config
    let step :=
      if "qos_warning" ∈ base then
        ("qos_warning", adopt_qos_warning_situation p ar.qos_unhealthy_metrics cfg0)
      else if "qos_unhealthy" ∈ base then
        ("qos_unhealthy", adopt_qos_unhealthy_situation p ar.qos_unhealthy_metrics cfg0)
      else (situation0, cfg0)
    if qoe_fixed ∧ step.1 = "qoe_unhealthy" then some ("qoe_unhealthy", step.2)
    else if "qos_healthy" ∈ base then none
    else
      let tail := qos_tail p ar.latency_avg config step.2
      if tail.1 < p.roi_threshold then none
      else some (step.1, tail.2)

/-- The per-service config update performed by `Planner.evaluate_services`
(`new_configs[svc] = new_config` when a decision was made) and adopted by the
driver on a successful cycle (`current_configs = new_configs`). -/
def updated_config (p : PlannerParams) (ar : AnalysisResult) (config : ResourceConfig) :
    ResourceConfig :=
  match decide_action p ar config with
  | some (_, cfg) => cfg
  | none => config

/-- The configuration bounds the spec's invariant asks the Planner to
maintain: CPU and memory requests/limits inside the Knowledge bounds,
replica inside its bounds, song quality in [1,3], preload depth in [0,10].
(`cache_size` appears here nowhere: the Planner reads no bound for it.) -/
def InBounds (p : PlannerParams) (c : ResourceConfig) : Prop :=
  p.min_cpu ≤ c.requests_cpu ∧ c.requests_cpu ≤ p.max_cpu ∧
  p.min_cpu ≤ c.limits_cpu ∧ c.limits_cpu ≤ p.max_cpu ∧
  p.min_memory ≤ c.requests_memory ∧ c.requests_memory ≤ p.max_memory ∧
  p.min_memory ≤ c.limits_memory ∧ c.limits_memory ≤ p.max_memory ∧
  p.min_replica ≤ c.replica ∧ c.replica ≤ p.max_replica ∧
  1 ≤ c.song_quality ∧ c.song_quality ≤ 3 ∧
  0 ≤ c.preload_song ∧ c.preload_song ≤ 10

/-! ## Executor embedding (src/driver/mapek/Executor.py)

The subprocess boundary is abstracted as an environment assigning a success
bit to the dry-run, backup and apply command of each service; the observable
behaviour is the Boolean result of `execute_plan` together with the ordered
trace of commands issued. -/

/-- The shape of an apply command, with exactly the fields the Python code
puts on the command line. -/
inductive ApplyAct where
  | redeploy
  | restartScale (replica : ℚ)
  | setLimitsScale (cpu memory replica : ℚ)
  | setReqLimitsScale (rcpu rmem lcpu lmem replica : ℚ)
deriving DecidableEq

/-- One issued external command. -/
inductive Cmd where
  | dryRun (svc : String)
  | backup (svc : String)
  | applyCmd (svc : String) (act : ApplyAct)
  | rollback (svc : String)
deriving DecidableEq

/-- Environment: success of each subprocess invocation, per service. -/
structure ExecEnv where
  dryRunOk : String → Bool
  backupOk : String → Bool
  applyOk : String → Bool

/-- STEP 1 of `Executor.execute_plan`: dry-run every service with a non-null
decision in plan order; the first failure aborts the transaction. -/
def dry_run_phase (env : ExecEnv) :
    List (String × Option ResourceConfig) → Bool × List Cmd
  | [] => (true, [])
  | (_, none) :: rest => dry_run_phase env rest
  | (svc, some _) :: rest =>
    if env.dryRunOk svc then
      let r := dry_run_phase env rest
      (r.1, Cmd.dryRun svc :: r.2)
    else (false, [Cmd.dryRun svc])

/-- STEP 2 of `Executor.execute_plan`: for each service with a non-null
decision, back it up, then dispatch on `system_situations[svc]`.  The two
self-heal modes `break` out of the loop unconditionally; the `"warning"` and
`"unhealthy"` modes `break` only on failure; any other mode matches no branch
and the loop moves on without an apply command.  Returns the success flag,
the backups mapping in insertion order, and the command trace. -/
def backup_apply_phase (env : ExecEnv) (sits : String → String) :
    List (String × Option ResourceConfig) →
    Bool × List (String × Option String) × List Cmd
  | [] => (true, [], [])
  | (_, none) :: rest => backup_apply_phase env sits rest
  | (svc, some cfg) :: rest =>
    let path : Option String := if env.backupOk svc then some ("backup/" ++ svc) else none
    let mode := sits svc
    if mode = "self_heal_hard" then
      (env.applyOk svc, [(svc, path)], [Cmd.backup svc, Cmd.applyCmd svc .redeploy])
    else if mode = "self_heal_soft" then
      (env.applyOk svc, [(svc, path)],
       [Cmd.backup svc, Cmd.applyCmd svc (.restartScale (max cfg.replica 1))])
    else if mode = "warning" then
      let act := ApplyAct.setLimitsScale cfg.limits_cpu cfg.limits_memory cfg.replica
      if env.applyOk svc then
        let r := backup_apply_phase env sits rest
        (r.1, (svc, path) :: r.2.1, Cmd.backup svc :: Cmd.applyCmd svc act :: r.2.2)
      else (false, [(svc, path)], [Cmd.backup svc, Cmd.applyCmd svc act])
    else if mode = "unhealthy" then
      let act := ApplyAct.setReqLimitsScale cfg.requests_cpu cfg.requests_memory
        cfg.limits_cpu cfg.limits_memory cfg.replica
      if env.applyOk svc then
        let r := backup_apply_phase env sits rest
        (r.1, (svc, path) :: r.2.1, Cmd.backup svc :: Cmd.applyCmd svc act :: r.2.2)
      else (false, [(svc, path)], [Cmd.backup svc, Cmd.applyCmd svc act])
    else
      let r := backup_apply_phase env sits rest
      (r.1, (svc, path) :: r.2.1, Cmd.backup svc :: r.2.2)

/-- STEP 3 of `Executor.execute_plan` on failure: `Executor._rollback` for
each entry of the `backups` dict in insertion order; a missing backup path is
only logged. -/
def rollback_cmds (backups : List (String × Option String)) : List Cmd :=
  backups.filterMap (fun e => match e.2 with
    | some _ => some (Cmd.rollback e.1)
    | none => none)

/-- `Executor.execute_plan`: dry-run phase, then backup & apply phase, then
rollback of all backed-up services when any apply failed. -/
def execute_plan (env : ExecEnv) (plan : List (String × Option ResourceConfig))
    (sits : String → String) : Bool × List Cmd :=
  let d := dry_run_phase env plan
  if d.1 = false then (false, d.2)
  else
    let r := backup_apply_phase env sits plan
    if r.1 then (true, d.2 ++ r.2.2)
    else (false, d.2 ++ r.2.2 ++ rollback_cmds r.2.1)

/-- The services whose backup command appears in a trace, in order. -/
def backupSvcs (tr : List Cmd) : List String :=
  tr.filterMap (fun c => match c with
    | Cmd.backup s => some s
    | _ => none)

/-- The services rolled back in a trace, in order. -/
def rollbackSvcs (tr : List Cmd) : List String :=
  tr.filterMap (fun c => match c with
    | Cmd.rollback s => some s
    | _ => none)

/-- The apply commands of a trace, in order. -/
def applyCmds (tr : List Cmd) : List Cmd :=
  tr.filter (fun c => match c with
    | Cmd.applyCmd _ _ => true
    | _ => false)

/-! ## Concrete sample data used to instantiate the theorems -/

/-- A representative threshold table (CPU band 20-80 %, memory band 40-80 %,
latency 200 ms, error rate 5, playback band 1-3 s, download band 1-5 s,
cache-hit floor 80 %, disk ceiling 80 %). -/
def thSample : Thresholds := ⟨80, 20, 80, 40, 200, 500, 5, 3, 1, 5, 1, 80, 80⟩

/-- Equal utility weights. -/
def wQuarter : Weights := ⟨1/4, 1/4, 1/4, 1/4⟩

/-- All weight on CPU. -/
def wCpuOnly : Weights := ⟨1, 0, 0, 0⟩

/-- Fresh (empty) sliding windows. -/
def dEmpty : ServiceDeques := ⟨[], [], [], [], [], [], [], []⟩

/-- A cycle sample with CPU well below the low band edge. -/
def inpLowCpu : EvalInput := ⟨0, 50, 0, 0, 0, 0, 0, 0, 1, 0, 0, 2, 2⟩

/-- A mid-band cycle sample (CPU 50 %, memory 60 %, QoE in band). -/
def inpMid : EvalInput := ⟨50, 60, 0, 0, 0, 0, 0, 0, 1, 0, 0, 2, 2⟩

/-- A sample planner parameter set: replica 1-5, CPU 250-2000 m,
memory 256-4096 MiB, ROI threshold 10. -/
def pSampleHi : PlannerParams := ⟨1, 5, 250, 2000, 256, 4096, 10⟩

/-- Same bounds with ROI threshold 1/10. -/
def pSampleLo : PlannerParams := ⟨1, 5, 250, 2000, 256, 4096, 1/10⟩

/-- A baseline config: 500 m CPU, 512 MiB on both requests and limits. -/
def cfgBase : ResourceConfig := ⟨500, 512, 500, 512, 1, 2, 1000, 5⟩

/-- An analysis result whose verdict is `qoe_unhealthy` + `qos_warning`
(realizable: one QoE flag, utility 0.6, no QoS flag). -/
def arQoEWarn : AnalysisResult :=
  ⟨0, 0, 0, 0, 0, 0, 0, 0, 1, 0, 0, 0, 0, 0.6,
   ["qoe_unhealthy", "qos_warning"], [], ["cache_hit_low"]⟩

/-- An analysis result whose verdict is `qoe_healthy` + `qos_warning` with
the single QoS flag `memory_low` (realizable: utility 0.6). -/
def arMemLow : AnalysisResult :=
  ⟨0, 0, 0, 0, 0, 0, 0, 0, 1, 0, 0, 0, 0, 0.6,
   ["qoe_healthy", "qos_warning"], ["memory_low"], []⟩

/-- An analysis result whose verdict is `qoe_unhealthy` + `qos_healthy`. -/
def arQoEOnly : AnalysisResult :=
  ⟨0, 0, 0, 0, 0, 0, 0, 0, 1, 0, 0, 0, 0, 0.9,
   ["qoe_unhealthy", "qos_healthy"], [], ["cache_hit_low"]⟩

/-- The all-zero QoE record (the "neutral record" of the spec). -/
def zeroQoE : QoERecord := ⟨0, 0, 0, 0, 0⟩

/-- A cycle sample whose cache-hit argument is the value `process_data`
computes from the pair of counts [3, 5]. -/
def inpZeroCache : EvalInput := ⟨50, 60, 0, 0, 0, 0, 0, 0, 1, 0, 0, 2, 2⟩

/-- An environment where every subprocess call succeeds. -/
def envAllOk : ExecEnv := ⟨fun _ => true, fun _ => true, fun _ => true⟩

/-- An environment where the apply command fails exactly for service `s3`. -/
def envS3Fails : ExecEnv := ⟨fun _ => true, fun _ => true, fun s => s ≠ "s3"⟩

/-- An environment where the dry-run fails exactly for service `s2`. -/
def envS2DryFails : ExecEnv := ⟨fun s => s ≠ "s2", fun _ => true, fun _ => true⟩

/-- A three-service plan, every decision non-null. -/
def plan3 : List (String × Option ResourceConfig) :=
  [("s1", some cfgBase), ("s2", some cfgBase), ("s3", some cfgBase)]

/-- Situations: `s1`, `s2` in the Executor's `"warning"` mode, `s3` soft
self-heal. -/
def sits3 : String → String := fun s => if s = "s3" then "self_heal_soft" else "warning"

/-! ## Helper lemmas: sliding windows -/

lemma dequeAppend_not_full (d : List ℚ) (x : ℚ) (h : d.length < windowSize) :
    dequeAppend d x = d ++ [x] := by
  show (d ++ [x]).drop ((d ++ [x]).length - windowSize) = d ++ [x]
  have h' : d.length < 5 := h
  have h5 : (d ++ [x]).length - windowSize = 0 := by
    simp only [List.length_append, List.length_singleton, windowSize]
    omega
  rw [h5, List.drop_zero]

lemma dequeAppend_full (d : List ℚ) (x : ℚ) (h : d.length = windowSize) :
    dequeAppend d x = d.tail ++ [x] := by
  show (d ++ [x]).drop ((d ++ [x]).length - windowSize) = d.tail ++ [x]
  have h' : d.length = 5 := h
  have h5 : (d ++ [x]).length - windowSize = 1 := by
    simp only [List.length_append, List.length_singleton, windowSize, h']
  rw [h5, List.drop_append_of_le_length (by omega), List.drop_one]

lemma dequeAppend_length (d : List ℚ) (x : ℚ) :
    (dequeAppend d x).length = min (d.length + 1) windowSize := by
  show ((d ++ [x]).drop ((d ++ [x]).length - windowSize)).length = _
  simp only [List.length_drop, List.length_append, List.length_singleton]
  omega

lemma mem_of_mem_dequeAppend {d : List ℚ} {x y : ℚ} (h : y ∈ dequeAppend d x) :
    y ∈ d ∨ y = x := by
  have h1 : y ∈ d ++ [x] := List.drop_subset _ _ h
  simpa using h1

lemma listMean_zero (l : List ℚ) (h : ∀ y ∈ l, y = 0) : listMean l = 0 := by
  rw [listMean, List.sum_eq_zero h, zero_div]

/-! ## Helper lemmas: health flags and verdict -/

lemma mem_qosFlags_cpu_high (th : Thresholds) (c m l e r : ℚ) :
    "cpu_high" ∈ qosFlags th c m l e r ↔ c > th.cpu_high := by
  unfold qosFlags
  split_ifs <;> simp_all

lemma mem_qosFlags_memory_high (th : Thresholds) (c m l e r : ℚ) :
    "memory_high" ∈ qosFlags th c m l e r ↔ m > th.memory_high := by
  unfold qosFlags
  split_ifs <;> simp_all

lemma mem_qosFlags_latency (th : Thresholds) (c m l e r : ℚ) :
    "latency_avg_high" ∈ qosFlags th c m l e r ↔ l > th.latency_avg := by
  unfold qosFlags
  split_ifs <;> simp_all

lemma mem_qosFlags_error (th : Thresholds) (c m l e r : ℚ) :
    "error_rate_high" ∈ qosFlags th c m l e r ↔ e > th.error_rate := by
  unfold qosFlags
  split_ifs <;> simp_all

lemma mem_qoeFlags_playback_high (th : Thresholds) (pb dl ch du : ℚ) :
    "playback_latency_high" ∈ qoeFlags th pb dl ch du ↔ pb > th.playback_high := by
  unfold qoeFlags
  split_ifs <;> simp_all

lemma mem_qoeFlags_download_high (th : Thresholds) (pb dl ch du : ℚ) :
    "download_time_high" ∈ qoeFlags th pb dl ch du ↔ dl > th.download_high := by
  unfold qoeFlags
  split_ifs <;> simp_all

lemma mem_qoeFlags_cache_hit_low (th : Thresholds) (pb dl ch du : ℚ) :
    "cache_hit_low" ∈ qoeFlags th pb dl ch du ↔ ch < th.cache_hit_low := by
  unfold qoeFlags
  split_ifs <;> simp_all

lemma mem_qoeFlags_disk_high (th : Thresholds) (pb dl ch du : ℚ) :
    "disk_usage_high" ∈ qoeFlags th pb dl ch du ↔ du > th.disk_usage := by
  unfold qoeFlags
  split_ifs <;> simp_all

lemma adaptationTags_spec (Q E : List String) (U : ℚ) :
    adaptationTags Q E U =
      (if "no_replicas" ∈ Q then ["self_heal"] else []) ++
      (if E ≠ [] then ["qoe_unhealthy"] else ["qoe_healthy"]) ++
      (if U ≥ 0.8 ∧ Q = [] then ["qos_healthy"]
       else if U < 0.5 ∨ 2 ≤ Q.length then ["qos_unhealthy"]
       else ["qos_warning"]) := by
  simp only [adaptationTags, List.length_eq_zero]

/-- C1.  For every service analyzed in a cycle, the Analyzer composes the
verdict tags in order: `self_heal` is appended exactly when `no_replicas` is
in the QoS unhealthy set; then `qoe_unhealthy` if the QoE unhealthy set is
non-empty, else `qoe_healthy`; then `qos_healthy` exactly when U ≥ 0.8 and
the QoS unhealthy set is empty, `qos_unhealthy` when U < 0.5 or the set has
at least two elements, and `qos_warning` otherwise. -/
theorem analyzer_verdict_composition (th : Thresholds) (w : Weights)
    (d : ServiceDeques) (inp : EvalInput) :
    ((evaluate_metrics th w d inp).1).adaptation =
      (if "no_replicas" ∈ ((evaluate_metrics th w d inp).1).qos_unhealthy_metrics
       then ["self_heal"] else []) ++
      (if ((evaluate_metrics th w d inp).1).qoe_unhealthy_metrics ≠ []
       then ["qoe_unhealthy"] else ["qoe_healthy"]) ++
      (if ((evaluate_metrics th w d inp).1).qos_overall_utility ≥ 0.8 ∧
          ((evaluate_metrics th w d inp).1).qos_unhealthy_metrics = []
       then ["qos_healthy"]
       else if ((evaluate_metrics th w d inp).1).qos_overall_utility < 0.5 ∨
          2 ≤ ((evaluate_metrics th w d inp).1).qos_unhealthy_metrics.length
       then ["qos_unhealthy"]
       else ["qos_warning"]) := by
  simp only [evaluate_metrics]
  exact adaptationTags_spec _ _ _

/-- C9.  Every (service, metric) sliding window holds at most the five most
recently appended samples, appending to a full window evicts the oldest
sample (FIFO), and the value the Analyzer evaluates against each threshold is
the arithmetic mean of the samples in the updated window. -/
theorem sliding_window_fifo_and_mean :
    (∀ (d : List ℚ) (x : ℚ), d.length < windowSize → dequeAppend d x = d ++ [x]) ∧
    (∀ (d : List ℚ) (x : ℚ), d.length = windowSize → dequeAppend d x = d.tail ++ [x]) ∧
    (∀ (d : List ℚ) (x : ℚ), (dequeAppend d x).length ≤ windowSize) ∧
    (∀ (th : Thresholds) (w : Weights) (d : ServiceDeques) (inp : EvalInput),
      ((evaluate_metrics th w d inp).2).cpu_deque = dequeAppend d.cpu_deque inp.cpu ∧
      ((evaluate_metrics th w d inp).2).memory_deque = dequeAppend d.memory_deque inp.memory ∧
      ((evaluate_metrics th w d inp).2).latency_avg_deque =
        dequeAppend d.latency_avg_deque (inp.latency_avg / 1000000) ∧
      ((evaluate_metrics th w d inp).2).error_rate_deque =
        dequeAppend d.error_rate_deque inp.error_rate ∧
      ((evaluate_metrics th w d inp).2).disk_usage = dequeAppend d.disk_usage inp.disk_usage ∧
      ((evaluate_metrics th w d inp).2).cache_hit = dequeAppend d.cache_hit inp.cache_hit ∧
      ((evaluate_metrics th w d inp).2).avg_playback_latency =
        dequeAppend d.avg_playback_latency inp.avg_playback_latency ∧
      ((evaluate_metrics th w d inp).2).avg_download_time =
        dequeAppend d.avg_download_time inp.avg_download_time ∧
      ((evaluate_metrics th w d inp).1).cpu = listMean (dequeAppend d.cpu_deque inp.cpu) ∧
      ((evaluate_metrics th w d inp).1).memory = listMean (dequeAppend d.memory_deque inp.memory) ∧
      ((evaluate_metrics th w d inp).1).latency_avg =
        listMean (dequeAppend d.latency_avg_deque (inp.latency_avg / 1000000)) ∧
      ((evaluate_metrics th w d inp).1).error_rate =
        listMean (dequeAppend d.error_rate_deque inp.error_rate) ∧
      (("cpu_high" ∈ ((evaluate_metrics th w d inp).1).qos_unhealthy_metrics) ↔
        listMean (dequeAppend d.cpu_deque inp.cpu) > th.cpu_high) ∧
      (("memory_high" ∈ ((evaluate_metrics th w d inp).1).qos_unhealthy_metrics) ↔
        listMean (dequeAppend d.memory_deque inp.memory) > th.memory_high) ∧
      (("latency_avg_high" ∈ ((evaluate_metrics th w d inp).1).qos_unhealthy_metrics) ↔
        listMean (dequeAppend d.latency_avg_deque (inp.latency_avg / 1000000)) > th.latency_avg) ∧
      (("error_rate_high" ∈ ((evaluate_metrics th w d inp).1).qos_unhealthy_metrics) ↔
        listMean (dequeAppend d.error_rate_deque inp.error_rate) > th.error_rate) ∧
      (("playback_latency_high" ∈ ((evaluate_metrics th w d inp).1).qoe_unhealthy_metrics) ↔
        listMean (dequeAppend d.avg_playback_latency inp.avg_playback_latency) > th.playback_high) ∧
      (("download_time_high" ∈ ((evaluate_metrics th w d inp).1).qoe_unhealthy_metrics) ↔
        listMean (dequeAppend d.avg_download_time inp.avg_download_time) > th.download_high) ∧
      (("cache_hit_low" ∈ ((evaluate_metrics th w d inp).1).qoe_unhealthy_metrics) ↔
        listMean (dequeAppend d.cache_hit inp.cache_hit) < th.cache_hit_low) ∧
      (("disk_usage_high" ∈ ((evaluate_metrics th w d inp).1).qoe_unhealthy_metrics) ↔
        listMean (dequeAppend d.disk_usage inp.disk_usage) > th.disk_usage)) := by
  refine ⟨dequeAppend_not_full, dequeAppend_full, ?_, ?_⟩
  · intro d x
    rw [dequeAppend_length]
    exact min_le_right _ _
  · intro th w d inp
    exact ⟨rfl, rfl, rfl, rfl, rfl, rfl, rfl, rfl, rfl, rfl, rfl, rfl,
      mem_qosFlags_cpu_high th _ _ _ _ _, mem_qosFlags_memory_high th _ _ _ _ _,
      mem_qosFlags_latency th _ _ _ _ _, mem_qosFlags_error th _ _ _ _ _,
      mem_qoeFlags_playback_high th _ _ _ _, mem_qoeFlags_download_high th _ _ _ _,
      mem_qoeFlags_cache_hit_low th _ _ _ _, mem_qoeFlags_disk_high th _ _ _ _⟩

/-- Witness for C9 at concrete windows: a non-full window grows on the right
and a full window evicts its oldest sample. -/
theorem sliding_window_fifo_and_mean_witness :
    dequeAppend [1, 2, 3] 4 = [1, 2, 3, 4] ∧
      dequeAppend [1, 2, 3, 4, 5] 6 = [2, 3, 4, 5, 6] :=
  ⟨sliding_window_fifo_and_mean.1 [1, 2, 3] 4 (by norm_num [windowSize]),
   sliding_window_fifo_and_mean.2.1 [1, 2, 3, 4, 5] 6 (by norm_num [windowSize])⟩

/-! ## C10: the cache-hit guard in process_data -/

lemma process_data_cache_hit_eq_zero (hits misses : ℕ) :
    process_data_cache_hit hits misses = 0 := by
  unfold process_data_cache_hit
  split_ifs with h
  · rfl
  · push_neg at h
    rw [h.1]
    norm_num

/-- C10.  For every pair of non-negative integer counts [hits, misses], the
cache-hit value `process_data` passes to `_evaluate_metrics` equals 0 (the
guard forces 0 whenever hits ≠ 0 or misses = 0, and otherwise hits = 0 makes
the computed percentage 0); consequently, when the window holds only such
values, the windowed cache-hit average is 0 and `cache_hit_low` is flagged
whenever the configured low threshold is positive. -/
theorem cache_hit_always_zero :
    (∀ hits misses : ℕ, process_data_cache_hit hits misses = 0) ∧
    (∀ (th : Thresholds) (w : Weights) (d : ServiceDeques) (inp : EvalInput)
        (hits misses : ℕ),
      (∀ y ∈ d.cache_hit, y = (0 : ℚ)) →
      inp.cache_hit = process_data_cache_hit hits misses →
      0 < th.cache_hit_low →
      "cache_hit_low" ∈ ((evaluate_metrics th w d inp).1).qoe_unhealthy_metrics) := by
  refine ⟨process_data_cache_hit_eq_zero, ?_⟩
  intro th w d inp hits misses hwin hinp hth
  have hx : inp.cache_hit = 0 := by rw [hinp, process_data_cache_hit_eq_zero]
  have hmean : listMean (dequeAppend d.cache_hit inp.cache_hit) = 0 := by
    apply listMean_zero
    intro y hy
    rcases mem_of_mem_dequeAppend hy with h | h
    · exact hwin y h
    · rw [h, hx]
  show "cache_hit_low" ∈ qoeFlags th _ _ _ _
  rw [mem_qoeFlags_cache_hit_low, hmean]
  exact hth

/-- Witness for C10: with counts [3, 5] the passed value is 0 and the flag is
raised against the sample thresholds. -/
theorem cache_hit_always_zero_witness :
    process_data_cache_hit 3 5 = 0 ∧
      "cache_hit_low" ∈ ((evaluate_metrics thSample wQuarter dEmpty inpZeroCache).1).qoe_unhealthy_metrics :=
  ⟨cache_hit_always_zero.1 3 5,
   cache_hit_always_zero.2 thSample wQuarter dEmpty inpZeroCache 3 5
     (by simp [dEmpty])
     (by norm_num [inpZeroCache, process_data_cache_hit])
     (by norm_num [thSample])⟩

/-! ## C7: range of the overall QoS utility -/

lemma normalize_high_is_good_mem (low high v : ℚ) (h1 : low ≤ v) (h2 : v ≤ high) :
    0 ≤ normalize_high_is_good low high v ∧ normalize_high_is_good low high v ≤ 1 := by
  unfold normalize_high_is_good
  rcases eq_or_lt_of_le (h1.trans h2) with h | h
  · have hv : v = low := le_antisymm (h ▸ h2) h1
    rw [hv, sub_self, zero_div]
    norm_num
  · constructor
    · apply div_nonneg <;> linarith
    · rw [div_le_one (by linarith)]
      linarith

lemma normalize_low_is_good_mem (high v : ℚ) (h1 : 0 ≤ v) (h2 : 0 < high) :
    0 ≤ normalize_low_is_good high v ∧ normalize_low_is_good high v ≤ 1 := by
  unfold normalize_low_is_good
  refine ⟨le_max_left _ _, max_le (by linarith) ?_⟩
  have h3 : 0 ≤ min (v / high) 1 := le_min (div_nonneg h1 h2.le) zero_le_one
  linarith

/-- C7 as stated is false: the band norm `(x − low)/(high − low)` is not
clamped, so with all weight on CPU and a CPU average below the low band edge
the utility is negative even though the weights are non-negative and sum
to 1. -/
theorem qos_utility_out_of_range :
    (0 ≤ wCpuOnly.cpu ∧ 0 ≤ wCpuOnly.memory ∧ 0 ≤ wCpuOnly.latency ∧
      0 ≤ wCpuOnly.error_rate ∧
      wCpuOnly.cpu + wCpuOnly.memory + wCpuOnly.latency + wCpuOnly.error_rate = 1) ∧
    ((evaluate_metrics thSample wCpuOnly dEmpty inpLowCpu).1).qos_overall_utility < 0 := by
  constructor
  · norm_num [wCpuOnly]
  · show normalize_high_is_good thSample.cpu_low thSample.cpu_high
        (listMean (dequeAppend dEmpty.cpu_deque inpLowCpu.cpu)) * wCpuOnly.cpu +
      normalize_high_is_good thSample.memory_low thSample.memory_high
        (listMean (dequeAppend dEmpty.memory_deque inpLowCpu.memory)) * wCpuOnly.memory +
      normalize_low_is_good thSample.latency_avg
        (listMean (dequeAppend dEmpty.latency_avg_deque (inpLowCpu.latency_avg / 1000000))) * wCpuOnly.latency +
      normalize_low_is_good thSample.error_rate
        (listMean (dequeAppend dEmpty.error_rate_deque inpLowCpu.error_rate)) * wCpuOnly.error_rate < 0
    norm_num [thSample, wCpuOnly, dEmpty, inpLowCpu, dequeAppend, listMean,
      windowSize, normalize_high_is_good, normalize_low_is_good]

/-- C7 amended: the utility lies in [0,1] provided the weights are
non-negative and sum to 1, the windowed CPU and memory means lie inside
their [low, high] bands, the windowed latency and error means are
non-negative, and the latency and error thresholds are positive. -/
theorem qos_utility_in_range_amended (th : Thresholds) (w : Weights)
    (d : ServiceDeques) (inp : EvalInput)
    (hw1 : 0 ≤ w.cpu) (hw2 : 0 ≤ w.memory) (hw3 : 0 ≤ w.latency)
    (hw4 : 0 ≤ w.error_rate)
    (hsum : w.cpu + w.memory + w.latency + w.error_rate = 1)
    (hc1 : th.cpu_low ≤ listMean (dequeAppend d.cpu_deque inp.cpu))
    (hc2 : listMean (dequeAppend d.cpu_deque inp.cpu) ≤ th.cpu_high)
    (hm1 : th.memory_low ≤ listMean (dequeAppend d.memory_deque inp.memory))
    (hm2 : listMean (dequeAppend d.memory_deque inp.memory) ≤ th.memory_high)
    (hl0 : 0 ≤ listMean (dequeAppend d.latency_avg_deque (inp.latency_avg / 1000000)))
    (hlth : 0 < th.latency_avg)
    (he0 : 0 ≤ listMean (dequeAppend d.error_rate_deque inp.error_rate))
    (heth : 0 < th.error_rate) :
    0 ≤ ((evaluate_metrics th w d inp).1).qos_overall_utility ∧
      ((evaluate_metrics th w d inp).1).qos_overall_utility ≤ 1 := by
  have hcpu := normalize_high_is_good_mem th.cpu_low th.cpu_high _ hc1 hc2
  have hmem := normalize_high_is_good_mem th.memory_low th.memory_high _ hm1 hm2
  have hlat := normalize_low_is_good_mem th.latency_avg _ hl0 hlth
  have herr := normalize_low_is_good_mem th.error_rate _ he0 heth
  show 0 ≤ normalize_high_is_good th.cpu_low th.cpu_high _ * w.cpu +
      normalize_high_is_good th.memory_low th.memory_high _ * w.memory +
      normalize_low_is_good th.latency_avg _ * w.latency +
      normalize_low_is_good th.error_rate _ * w.error_rate ∧
    normalize_high_is_good th.cpu_low th.cpu_high _ * w.cpu +
      normalize_high_is_good th.memory_low th.memory_high _ * w.memory +
      normalize_low_is_good th.latency_avg _ * w.latency +
      normalize_low_is_good th.error_rate _ * w.error_rate ≤ 1
  constructor
  · have t1 := mul_nonneg hcpu.1 hw1
    have t2 := mul_nonneg hmem.1 hw2
    have t3 := mul_nonneg hlat.1 hw3
    have t4 := mul_nonneg herr.1 hw4
    linarith
  · have t1 := mul_le_of_le_one_left hw1 hcpu.2
    have t2 := mul_le_of_le_one_left hw2 hmem.2
    have t3 := mul_le_of_le_one_left hw3 hlat.2
    have t4 := mul_le_of_le_one_left hw4 herr.2
    linarith

/-- Witness for C7 amended at a mid-band sample with equal weights. -/
theorem qos_utility_in_range_amended_witness :
    0 ≤ ((evaluate_metrics thSample wQuarter dEmpty inpMid).1).qos_overall_utility ∧
      ((evaluate_metrics thSample wQuarter dEmpty inpMid).1).qos_overall_utility ≤ 1 :=
  qos_utility_in_range_amended thSample wQuarter dEmpty inpMid
    (by norm_num [wQuarter]) (by norm_num [wQuarter]) (by norm_num [wQuarter])
    (by norm_num [wQuarter]) (by norm_num [wQuarter])
    (by norm_num [thSample, dEmpty, inpMid, dequeAppend, listMean, windowSize])
    (by norm_num [thSample, dEmpty, inpMid, dequeAppend, listMean, windowSize])
    (by norm_num [thSample, dEmpty, inpMid, dequeAppend, listMean, windowSize])
    (by norm_num [thSample, dEmpty, inpMid, dequeAppend, listMean, windowSize])
    (by norm_num [thSample, dEmpty, inpMid, dequeAppend, listMean, windowSize])
    (by norm_num [thSample])
    (by norm_num [thSample, dEmpty, inpMid, dequeAppend, listMean, windowSize])
    (by norm_num [thSample])

/-! ## C8: Monitor QoE fetch on network error -/

/-- C8 as stated is false: on a network error `fetch_data_from_cartunes`
returns `None`, not the all-zero neutral record. -/
theorem qoe_fetch_error_returns_none :
    fetch_data_from_cartunes FetchOutcome.networkError ≠ some zeroQoE := by
  simp [fetch_data_from_cartunes]

/-- C8 amended: on a network error the QoE fetch logs and returns `None`,
and `process_data` does not guard against the `None` record, so the cycle's
QoE extraction fails (`qoe_data["disk_usage"]` raises) instead of proceeding
with neutral zeros. -/
theorem qoe_fetch_error_amended :
    fetch_data_from_cartunes FetchOutcome.networkError = none ∧
      process_data_qoe_inputs (fetch_data_from_cartunes FetchOutcome.networkError) = none :=
  ⟨rfl, rfl⟩

/-! ## Executor helper lemmas -/

lemma dry_run_phase_cmds (env : ExecEnv) :
    ∀ plan, ∀ c ∈ (dry_run_phase env plan).2, ∃ s, c = Cmd.dryRun s := by
  intro plan
  induction plan with
  | nil => simp [dry_run_phase]
  | cons hd tl ih =>
    obtain ⟨svc, a⟩ := hd
    cases a with
    | none => simpa [dry_run_phase] using ih
    | some cfg =>
      cases h : env.dryRunOk svc with
      | false =>
        simp [dry_run_phase, h]
      | true =>
        simp only [dry_run_phase, h, if_true, List.mem_cons]
        rintro c (rfl | hc)
        · exact ⟨svc, rfl⟩
        · exact ih c hc

lemma dry_run_phase_fail (env : ExecEnv) :
    ∀ plan (svc : String) (cfg : ResourceConfig), (svc, some cfg) ∈ plan →
      env.dryRunOk svc = false → (dry_run_phase env plan).1 = false := by
  intro plan
  induction plan with
  | nil => intro svc cfg h; simp at h
  | cons hd tl ih =>
    intro svc cfg hmem hfail
    obtain ⟨s, a⟩ := hd
    rcases List.mem_cons.mp hmem with heq | hmem'
    · injection heq with h1 h2
      subst h1
      subst h2
      simp [dry_run_phase, hfail]
    · cases a with
      | none => simpa [dry_run_phase] using ih svc cfg hmem' hfail
      | some c' =>
        cases h : env.dryRunOk s with
        | false => simp [dry_run_phase, h]
        | true => simpa [dry_run_phase, h] using ih svc cfg hmem' hfail

lemma svcs_of_all_dry_run {tr : List Cmd} (h : ∀ c ∈ tr, ∃ s, c = Cmd.dryRun s) :
    backupSvcs tr = [] ∧ rollbackSvcs tr = [] := by
  induction tr with
  | nil => simp [backupSvcs, rollbackSvcs]
  | cons c tl ih =>
    obtain ⟨s, rfl⟩ := h c (List.mem_cons_self c tl)
    have ih' := ih (fun c hc => h c (List.mem_cons_of_mem _ hc))
    simp [backupSvcs, rollbackSvcs] at ih' ⊢
    exact ih'

lemma backupSvcs_append (a b : List Cmd) :
    backupSvcs (a ++ b) = backupSvcs a ++ backupSvcs b := by
  simp [backupSvcs, List.filterMap_append]

lemma rollbackSvcs_append (a b : List Cmd) :
    rollbackSvcs (a ++ b) = rollbackSvcs a ++ rollbackSvcs b := by
  simp [rollbackSvcs, List.filterMap_append]

lemma backup_apply_phase_trace (env : ExecEnv) (sits : String → String) :
    ∀ plan, rollbackSvcs (backup_apply_phase env sits plan).2.2 = [] ∧
      backupSvcs (backup_apply_phase env sits plan).2.2 =
        ((backup_apply_phase env sits plan).2.1).map Prod.fst := by
  intro plan
  induction plan with
  | nil => simp [backup_apply_phase, backupSvcs, rollbackSvcs]
  | cons hd tl ih =>
    obtain ⟨svc, a⟩ := hd
    cases a with
    | none => simpa [backup_apply_phase] using ih
    | some cfg =>
      by_cases h1 : sits svc = "self_heal_hard"
      · simp [backup_apply_phase, h1, backupSvcs, rollbackSvcs]
      · by_cases h2 : sits svc = "self_heal_soft"
        · simp [backup_apply_phase, h1, h2, backupSvcs, rollbackSvcs]
        · by_cases h3 : sits svc = "warning"
          · cases h : env.applyOk svc with
            | false => simp [backup_apply_phase, h1, h2, h3, h, backupSvcs, rollbackSvcs]
            | true =>
              have := ih
              simp [backup_apply_phase, h1, h2, h3, h, backupSvcs, rollbackSvcs] at this ⊢
              exact this
          · by_cases h4 : sits svc = "unhealthy"
            · cases h : env.applyOk svc with
              | false => simp [backup_apply_phase, h1, h2, h3, h4, h, backupSvcs, rollbackSvcs]
              | true =>
                have := ih
                simp [backup_apply_phase, h1, h2, h3, h4, h, backupSvcs, rollbackSvcs] at this ⊢
                exact this
            · have := ih
              simp [backup_apply_phase, h1, h2, h3, h4, backupSvcs, rollbackSvcs] at this ⊢
              exact this

lemma rollback_cmds_map_svcs (B : List (String × Option String)) :
    rollbackSvcs (B.map (fun e => Cmd.rollback e.1)) = B.map Prod.fst ∧
      backupSvcs (B.map (fun e => Cmd.rollback e.1)) = [] := by
  induction B with
  | nil => simp [rollbackSvcs, backupSvcs]
  | cons e tl ih =>
    simp [rollbackSvcs, backupSvcs] at ih ⊢
    exact ih

lemma backup_apply_phase_rollback (env : ExecEnv) (sits : String → String)
    (hb : ∀ s, env.backupOk s = true) :
    ∀ plan, rollback_cmds (backup_apply_phase env sits plan).2.1 =
      ((backup_apply_phase env sits plan).2.1).map (fun e => Cmd.rollback e.1) := by
  intro plan
  induction plan with
  | nil => simp [backup_apply_phase, rollback_cmds]
  | cons hd tl ih =>
    obtain ⟨svc, a⟩ := hd
    cases a with
    | none => simpa [backup_apply_phase] using ih
    | some cfg =>
      by_cases h1 : sits svc = "self_heal_hard"
      · simp [backup_apply_phase, h1, rollback_cmds, hb]
      · by_cases h2 : sits svc = "self_heal_soft"
        · simp [backup_apply_phase, h1, h2, rollback_cmds, hb]
        · by_cases h3 : sits svc = "warning"
          · cases h : env.applyOk svc with
            | false => simp [backup_apply_phase, h1, h2, h3, h, rollback_cmds, hb]
            | true =>
              have := ih
              simp [backup_apply_phase, h1, h2, h3, h, rollback_cmds, hb] at this ⊢
              exact this
          · by_cases h4 : sits svc = "unhealthy"
            · cases h : env.applyOk svc with
              | false => simp [backup_apply_phase, h1, h2, h3, h4, h, rollback_cmds, hb]
              | true =>
                have := ih
                simp [backup_apply_phase, h1, h2, h3, h4, h, rollback_cmds, hb] at this ⊢
                exact this
            · have := ih
              simp [backup_apply_phase, h1, h2, h3, h4, rollback_cmds, hb] at this ⊢
              exact this

/-- C5.  If any service with a non-null decision fails dry-run verification,
`execute_plan` returns failure and its command trace consists of dry-run
probes only — no backup, apply or rollback command is issued, so no service's
configuration is modified. -/
theorem executor_dry_run_gate (env : ExecEnv)
    (plan : List (String × Option ResourceConfig)) (sits : String → String)
    (svc : String) (cfg : ResourceConfig)
    (hmem : (svc, some cfg) ∈ plan) (hfail : env.dryRunOk svc = false) :
    (execute_plan env plan sits).1 = false ∧
      ∀ c ∈ (execute_plan env plan sits).2, ∃ s, c = Cmd.dryRun s := by
  have h1 : (dry_run_phase env plan).1 = false :=
    dry_run_phase_fail env plan svc cfg hmem hfail
  constructor
  · simp [execute_plan, h1]
  · simp only [execute_plan, h1, if_true]
    exact dry_run_phase_cmds env plan

/-- Witness for C5: with the dry-run for `s2` failing, the three-service plan
aborts with a trace of dry-run probes only. -/
theorem executor_dry_run_gate_witness :
    (execute_plan envS2DryFails plan3 sits3).1 = false ∧
      ∀ c ∈ (execute_plan envS2DryFails plan3 sits3).2, ∃ s, c = Cmd.dryRun s :=
  executor_dry_run_gate envS2DryFails plan3 sits3 "s2" cfgBase
    (by simp [plan3]) (by simp [envS2DryFails])

/-- C4 as stated is false: when the apply for the third of three services
fails, the Executor rolls back the services in forward apply order and
includes the failed service itself — `[s1, s2, s3]`, not the claim's reverse
restore of services 1..k−1 (`[s2, s1]`). -/
theorem executor_rollback_order_cex :
    (execute_plan envS3Fails plan3 sits3).1 = false ∧
      rollbackSvcs (execute_plan envS3Fails plan3 sits3).2 = ["s1", "s2", "s3"] ∧
      rollbackSvcs (execute_plan envS3Fails plan3 sits3).2 ≠ ["s2", "s1"] := by
  refine ⟨?_, ?_, ?_⟩ <;>
    simp [execute_plan, dry_run_phase, backup_apply_phase, rollback_cmds,
      rollbackSvcs, plan3, sits3, envS3Fails, cfgBase]

/-- C4 amended: on apply failure the Executor returns failure and rolls back
exactly the services it backed up (services 1..k, the failed one included),
in forward apply order: the trace's rollback list equals its backup list. -/
theorem executor_rollback_amended (env : ExecEnv)
    (plan : List (String × Option ResourceConfig)) (sits : String → String)
    (hb : ∀ s, env.backupOk s = true) :
    rollbackSvcs (execute_plan env plan sits).2 =
      (if (execute_plan env plan sits).1 then []
       else backupSvcs (execute_plan env plan sits).2) := by
  unfold execute_plan
  cases hd : (dry_run_phase env plan).1 with
  | false =>
    simp only [hd, if_true]
    have h := svcs_of_all_dry_run (dry_run_phase_cmds env plan)
    simp [h.1, h.2]
  | true =>
    simp only [hd, Bool.true_eq_false, if_false]
    have hdry := svcs_of_all_dry_run (dry_run_phase_cmds env plan)
    have htr := backup_apply_phase_trace env sits plan
    have hrb := backup_apply_phase_rollback env sits hb plan
    have hmap := rollback_cmds_map_svcs (backup_apply_phase env sits plan).2.1
    cases hr : (backup_apply_phase env sits plan).1 with
    | true =>
      simp [hr, rollbackSvcs_append, hdry.2, htr.1]
    | false =>
      simp [hr, rollbackSvcs_append, backupSvcs_append, hdry.1, hdry.2,
        htr.1, htr.2, hrb, hmap.1, hmap.2]

/-- Witness for C4 amended at the concrete failing three-service plan. -/
theorem executor_rollback_amended_witness :
    rollbackSvcs (execute_plan envS3Fails plan3 sits3).2 =
      (if (execute_plan envS3Fails plan3 sits3).1 then []
       else backupSvcs (execute_plan envS3Fails plan3 sits3).2) :=
  executor_rollback_amended envS3Fails plan3 sits3 (fun _ => rfl)

/-- C6.  The Planner labels limits-only moves `qos_warning`, but the Executor
dispatches on the literal `"warning"`: with situation `qos_warning` no branch
matches, so the service is backed up and then skipped with no apply command
(the claim's `limits.cpu`/`limits.memory`/`replica` command is issued only
for the literal mode `"warning"`, which the Planner never emits). -/
theorem executor_qos_warning_no_apply :
    applyCmds (execute_plan envAllOk [("cartunes-app", some cfgBase)]
        (fun _ => "qos_warning")).2 = [] ∧
      (execute_plan envAllOk [("cartunes-app", some cfgBase)]
        (fun _ => "qos_warning")).2 =
        [Cmd.dryRun "cartunes-app", Cmd.backup "cartunes-app"] ∧
      applyCmds (execute_plan envAllOk [("cartunes-app", some cfgBase)]
        (fun _ => "warning")).2 =
        [Cmd.applyCmd "cartunes-app"
          (ApplyAct.setLimitsScale cfgBase.limits_cpu cfgBase.limits_memory
            cfgBase.replica)] := by
  refine ⟨?_, ?_, ?_⟩ <;>
    simp [execute_plan, dry_run_phase, backup_apply_phase, rollback_cmds,
      applyCmds, envAllOk]

/-! ## C2: the ROI gate -/

/-- C2 as stated is false: a decision carrying QoE-unhealthy flags is
suppressed by the ROI gate when it is combined with a `qos_warning` tier —
with ROI threshold 10 the computed ROI (250000/200001 ≈ 1.25) loses and the
Planner returns a no-op even though `qoe_unhealthy` is flagged. -/
theorem planner_roi_gate_cex :
    "qoe_unhealthy" ∈ arQoEWarn.adaptation ∧
      arQoEWarn.qoe_unhealthy_metrics ≠ [] ∧
      decide_action pSampleHi arQoEWarn cfgBase = none := by
  refine ⟨by simp [arQoEWarn], by simp [arQoEWarn], ?_⟩
  have h0 : adopt_qoe_unhealthy_situation ["cache_hit_low"] cfgBase =
      ⟨500, 512, 500, 512, 1, 2, 1500, 5⟩ := by
    simp [adopt_qoe_unhealthy_situation, qoe_song_down, qoe_song_up, qoe_cache_down,
      qoe_cache_up, qoe_preload_down, qoe_preload_up, cfgBase]
    norm_num
  have h1 : adopt_qos_warning_situation pSampleHi []
      (⟨500, 512, 500, 512, 1, 2, 1500, 5⟩ : ResourceConfig) =
      ⟨500, 512, 500, 512, 1, 2, 1500, 5⟩ := by
    simp [adopt_qos_warning_situation, warning_cpu_up, warning_memory_up,
      warning_cpu_down, warning_memory_down, warning_replica_up,
      warning_replica_down, pSampleHi]
  have h2 : qos_tail pSampleHi 0 cfgBase
      (⟨500, 512, 500, 512, 1, 2, 1500, 5⟩ : ResourceConfig) =
      (250000 / 200001, ⟨250, 512, 250, 512, 1, 2, 1500, 5⟩) := by
    simp [qos_tail, cpu_candidates, select_best, loop_roi, pareto_frontier,
      dominates, List.map, List.filter, List.foldl, pSampleHi, cfgBase]
    norm_num [min_def, max_def, abs]
  simp [decide_action, arQoEWarn, h0, h1, h2]
  norm_num [pSampleHi]

/-- C2 amended: a self-heal decision is never ROI-gated; a QoE move is never
ROI-gated when no QoS warning/unhealthy tier accompanies it; and a QoS move
(no self-heal, no QoE flags) whose computed ROI is below the threshold is
suppressed.  (A QoE adjustment combined with a `qos_warning`/`qos_unhealthy`
tier, however, passes through the ROI gate, per the counterexample.) -/
theorem planner_roi_gate_amended :
    (∀ (p : PlannerParams) (ar : AnalysisResult) (config : ResourceConfig),
      "self_heal" ∈ ar.adaptation →
      decide_action p ar config =
        some (if "no_replicas" ∈ ar.qos_unhealthy_metrics then "self_heal_hard"
              else "self_heal_soft", config)) ∧
    (∀ (p : PlannerParams) (ar : AnalysisResult) (config : ResourceConfig),
      "self_heal" ∉ ar.adaptation → "qoe_unhealthy" ∈ ar.adaptation →
      "qos_warning" ∉ ar.adaptation → "qos_unhealthy" ∉ ar.adaptation →
      decide_action p ar config =
        some ("qoe_unhealthy",
          adopt_qoe_unhealthy_situation ar.qoe_unhealthy_metrics config)) ∧
    (∀ (p : PlannerParams) (ar : AnalysisResult) (config : ResourceConfig),
      "self_heal" ∉ ar.adaptation → "qoe_unhealthy" ∉ ar.adaptation →
      "qos_healthy" ∉ ar.adaptation →
      (qos_tail p ar.latency_avg config
        (if "qos_warning" ∈ ar.adaptation then
          adopt_qos_warning_situation p ar.qos_unhealthy_metrics config
         else if "qos_unhealthy" ∈ ar.adaptation then
          adopt_qos_unhealthy_situation p ar.qos_unhealthy_metrics config
         else config)).1 < p.roi_threshold →
      decide_action p ar config = none) := by
  refine ⟨?_, ?_, ?_⟩
  · intro p ar config h
    simp [decide_action, h]
  · intro p ar config h1 h2 h3 h4
    simp [decide_action, h1, h2, h3, h4]
  · intro p ar config h1 h2 h3 hroi
    by_cases hw : "qos_warning" ∈ ar.adaptation
    · simp only [hw, if_true] at hroi
      simp [decide_action, h1, h2, h3, hw, hroi]
    · by_cases hu : "qos_unhealthy" ∈ ar.adaptation
      · simp only [hw, hu, if_true, if_false] at hroi
        simp [decide_action, h1, h2, h3, hw, hu, hroi]
      · simp only [hw, hu, if_false] at hroi
        simp [decide_action, h1, h2, h3, hw, hu, hroi]

/-- Witness for C2 amended: a pure QoE move (healthy QoS tier) is returned
untouched by the ROI gate even at threshold 10. -/
theorem planner_roi_gate_amended_witness :
    decide_action pSampleHi arQoEOnly cfgBase =
      some ("qoe_unhealthy",
        adopt_qoe_unhealthy_situation arQoEOnly.qoe_unhealthy_metrics cfgBase) :=
  planner_roi_gate_amended.2.1 pSampleHi arQoEOnly cfgBase
    (by simp [arQoEOnly]) (by simp [arQoEOnly]) (by simp [arQoEOnly])
    (by simp [arQoEOnly])

/-! ## C3: configuration bounds through the Planner -/

lemma warning_cpu_up_bounds {p : PlannerParams} {un : List String} {c : ResourceConfig}
    (hpc : p.min_cpu ≤ p.max_cpu) (h : InBounds p c) :
    InBounds p (warning_cpu_up p un c) := by
  obtain ⟨a1, a2, a3, a4, a5, a6, a7, a8, a9, a10, a11, a12, a13, a14⟩ := h
  unfold warning_cpu_up
  split_ifs
  · exact ⟨a1, a2, le_min (by linarith) hpc, min_le_right _ _, a5, a6, a7, a8, a9, a10,
      a11, a12, a13, a14⟩
  · exact ⟨a1, a2, a3, a4, a5, a6, a7, a8, a9, a10, a11, a12, a13, a14⟩

lemma warning_memory_up_bounds {p : PlannerParams} {un : List String} {c : ResourceConfig}
    (hpm : p.min_memory ≤ p.max_memory) (h : InBounds p c) :
    InBounds p (warning_memory_up p un c) := by
  obtain ⟨a1, a2, a3, a4, a5, a6, a7, a8, a9, a10, a11, a12, a13, a14⟩ := h
  unfold warning_memory_up
  split_ifs
  · exact ⟨a1, a2, a3, a4, a5, a6, le_min (by linarith) hpm, min_le_right _ _, a9, a10,
      a11, a12, a13, a14⟩
  · exact ⟨a1, a2, a3, a4, a5, a6, a7, a8, a9, a10, a11, a12, a13, a14⟩

lemma warning_cpu_down_bounds {p : PlannerParams} {un : List String} {c : ResourceConfig}
    (hpc : p.min_cpu ≤ p.max_cpu) (h : InBounds p c) :
    InBounds p (warning_cpu_down p un c) := by
  obtain ⟨a1, a2, a3, a4, a5, a6, a7, a8, a9, a10, a11, a12, a13, a14⟩ := h
  unfold warning_cpu_down
  split_ifs
  · exact ⟨a1, a2, le_max_right _ _, max_le (by linarith) hpc, a5, a6, a7, a8, a9, a10,
      a11, a12, a13, a14⟩
  · exact ⟨a1, a2, a3, a4, a5, a6, a7, a8, a9, a10, a11, a12, a13, a14⟩

lemma warning_memory_down_bounds {p : PlannerParams} {un : List String} {c : ResourceConfig}
    (hpm : p.min_memory ≤ p.max_memory) (h : InBounds p c) :
    InBounds p (warning_memory_down p un c) := by
  obtain ⟨a1, a2, a3, a4, a5, a6, a7, a8, a9, a10, a11, a12, a13, a14⟩ := h
  unfold warning_memory_down
  split_ifs
  · exact ⟨a1, a2, a3, a4, a5, a6, le_max_right _ _, max_le (by linarith) hpm, a9, a10,
      a11, a12, a13, a14⟩
  · exact ⟨a1, a2, a3, a4, a5, a6, a7, a8, a9, a10, a11, a12, a13, a14⟩

lemma warning_replica_up_bounds {p : PlannerParams} {un : List String} {c : ResourceConfig}
    (hpr : p.min_replica ≤ p.max_replica) (h : InBounds p c) :
    InBounds p (warning_replica_up p un c) := by
  obtain ⟨a1, a2, a3, a4, a5, a6, a7, a8, a9, a10, a11, a12, a13, a14⟩ := h
  unfold warning_replica_up
  split_ifs
  · exact ⟨a1, a2, a3, a4, a5, a6, a7, a8, le_min (by linarith) hpr, min_le_right _ _,
      a11, a12, a13, a14⟩
  · exact ⟨a1, a2, a3, a4, a5, a6, a7, a8, a9, a10, a11, a12, a13, a14⟩

lemma warning_replica_down_bounds {p : PlannerParams} {un : List String} {c : ResourceConfig}
    (hpr : p.min_replica ≤ p.max_replica) (h : InBounds p c) :
    InBounds p (warning_replica_down p un c) := by
  obtain ⟨a1, a2, a3, a4, a5, a6, a7, a8, a9, a10, a11, a12, a13, a14⟩ := h
  unfold warning_replica_down
  split_ifs
  · exact ⟨a1, a2, a3, a4, a5, a6, a7, a8, le_max_right _ _, max_le (by linarith) hpr,
      a11, a12, a13, a14⟩
  · exact ⟨a1, a2, a3, a4, a5, a6, a7, a8, a9, a10, a11, a12, a13, a14⟩

lemma adopt_qos_warning_bounds {p : PlannerParams} {un : List String} {c : ResourceConfig}
    (hpc : p.min_cpu ≤ p.max_cpu) (hpm : p.min_memory ≤ p.max_memory)
    (hpr : p.min_replica ≤ p.max_replica) (h : InBounds p c) :
    InBounds p (adopt_qos_warning_situation p un c) := by
  unfold adopt_qos_warning_situation
  exact warning_replica_down_bounds hpr (warning_replica_up_bounds hpr
    (warning_memory_down_bounds hpm (warning_cpu_down_bounds hpc
      (warning_memory_up_bounds hpm (warning_cpu_up_bounds hpc h)))))

lemma unhealthy_cpu_up_bounds {p : PlannerParams} {un : List String} {c : ResourceConfig}
    (hpc : p.min_cpu ≤ p.max_cpu) (h : InBounds p c) :
    InBounds p (unhealthy_cpu_up p un c) := by
  obtain ⟨a1, a2, a3, a4, a5, a6, a7, a8, a9, a10, a11, a12, a13, a14⟩ := h
  unfold unhealthy_cpu_up
  split_ifs
  · exact ⟨le_min (by linarith) hpc, min_le_right _ _, le_min (by linarith) hpc,
      min_le_right _ _, a5, a6, a7, a8, a9, a10, a11, a12, a13, a14⟩
  · exact ⟨a1, a2, a3, a4, a5, a6, a7, a8, a9, a10, a11, a12, a13, a14⟩

lemma unhealthy_memory_up_bounds {p : PlannerParams} {un : List String} {c : ResourceConfig}
    (hpm : p.min_memory ≤ p.max_memory) (h : InBounds p c) :
    InBounds p (unhealthy_memory_up p un c) := by
  obtain ⟨a1, a2, a3, a4, a5, a6, a7, a8, a9, a10, a11, a12, a13, a14⟩ := h
  unfold unhealthy_memory_up
  split_ifs
  · exact ⟨a1, a2, a3, a4, le_min (by linarith) hpm, min_le_right _ _,
      le_min (by linarith) hpm, min_le_right _ _, a9, a10, a11, a12, a13, a14⟩
  · exact ⟨a1, a2, a3, a4, a5, a6, a7, a8, a9, a10, a11, a12, a13, a14⟩

lemma unhealthy_cpu_down_bounds {p : PlannerParams} {un : List String} {c : ResourceConfig}
    (hpc : p.min_cpu ≤ p.max_cpu) (h : InBounds p c) :
    InBounds p (unhealthy_cpu_down p un c) := by
  obtain ⟨a1, a2, a3, a4, a5, a6, a7, a8, a9, a10, a11, a12, a13, a14⟩ := h
  unfold unhealthy_cpu_down
  split_ifs
  · exact ⟨le_max_right _ _, max_le (by linarith) hpc, le_max_right _ _,
      max_le (by linarith) hpc, a5, a6, a7, a8, a9, a10, a11, a12, a13, a14⟩
  · exact ⟨a1, a2, a3, a4, a5, a6, a7, a8, a9, a10, a11, a12, a13, a14⟩

lemma unhealthy_memory_down_bounds {p : PlannerParams} {un : List String} {c : ResourceConfig}
    (hpm : p.min_memory ≤ p.max_memory) (h : InBounds p c) :
    InBounds p (unhealthy_memory_down p un c) := by
  obtain ⟨a1, a2, a3, a4, a5, a6, a7, a8, a9, a10, a11, a12, a13, a14⟩ := h
  unfold unhealthy_memory_down
  split_ifs
  · exact ⟨a1, a2, a3, a4, le_max_right _ _, max_le (by linarith) hpm,
      le_max_right _ _, max_le (by linarith) hpm, a9, a10, a11, a12, a13, a14⟩
  · exact ⟨a1, a2, a3, a4, a5, a6, a7, a8, a9, a10, a11, a12, a13, a14⟩

lemma unhealthy_replica_up_bounds {p : PlannerParams} {un : List String} {c : ResourceConfig}
    (hpr : p.min_replica ≤ p.max_replica) (h : InBounds p c) :
    InBounds p (unhealthy_replica_up p un c) := by
  obtain ⟨a1, a2, a3, a4, a5, a6, a7, a8, a9, a10, a11, a12, a13, a14⟩ := h
  unfold unhealthy_replica_up
  split_ifs
  · exact ⟨a1, a2, a3, a4, a5, a6, a7, a8, le_min (by linarith) hpr, min_le_right _ _,
      a11, a12, a13, a14⟩
  · exact ⟨a1, a2, a3, a4, a5, a6, a7, a8, a9, a10, a11, a12, a13, a14⟩

lemma unhealthy_replica_down_bounds {p : PlannerParams} {un : List String} {c : ResourceConfig}
    (hpr : p.min_replica ≤ p.max_replica) (h : InBounds p c) :
    InBounds p (unhealthy_replica_down p un c) := by
  obtain ⟨a1, a2, a3, a4, a5, a6, a7, a8, a9, a10, a11, a12, a13, a14⟩ := h
  unfold unhealthy_replica_down
  split_ifs
  · exact ⟨a1, a2, a3, a4, a5, a6, a7, a8, le_max_right _ _, max_le (by linarith) hpr,
      a11, a12, a13, a14⟩
  · exact ⟨a1, a2, a3, a4, a5, a6, a7, a8, a9, a10, a11, a12, a13, a14⟩

lemma adopt_qos_unhealthy_bounds {p : PlannerParams} {un : List String} {c : ResourceConfig}
    (hpc : p.min_cpu ≤ p.max_cpu) (hpm : p.min_memory ≤ p.max_memory)
    (hpr : p.min_replica ≤ p.max_replica) (h : InBounds p c) :
    InBounds p (adopt_qos_unhealthy_situation p un c) := by
  unfold adopt_qos_unhealthy_situation
  exact unhealthy_replica_down_bounds hpr (unhealthy_replica_up_bounds hpr
    (unhealthy_memory_down_bounds hpm (unhealthy_cpu_down_bounds hpc
      (unhealthy_memory_up_bounds hpm (unhealthy_cpu_up_bounds hpc h)))))

lemma qoe_song_down_bounds {p : PlannerParams} {un : List String} {c : ResourceConfig}
    (h : InBounds p c) : InBounds p (qoe_song_down un c) := by
  obtain ⟨a1, a2, a3, a4, a5, a6, a7, a8, a9, a10, a11, a12, a13, a14⟩ := h
  unfold qoe_song_down
  split_ifs
  · exact ⟨a1, a2, a3, a4, a5, a6, a7, a8, a9, a10, le_max_right _ _,
      max_le (by linarith) (by norm_num), a13, a14⟩
  · exact ⟨a1, a2, a3, a4, a5, a6, a7, a8, a9, a10, a11, a12, a13, a14⟩

lemma qoe_song_up_bounds {p : PlannerParams} {un : List String} {c : ResourceConfig}
    (h : InBounds p c) : InBounds p (qoe_song_up un c) := by
  obtain ⟨a1, a2, a3, a4, a5, a6, a7, a8, a9, a10, a11, a12, a13, a14⟩ := h
  unfold qoe_song_up
  split_ifs
  · exact ⟨a1, a2, a3, a4, a5, a6, a7, a8, a9, a10, le_min (by linarith) (by norm_num),
      min_le_right _ _, a13, a14⟩
  · exact ⟨a1, a2, a3, a4, a5, a6, a7, a8, a9, a10, a11, a12, a13, a14⟩

lemma qoe_cache_down_bounds {p : PlannerParams} {un : List String} {c : ResourceConfig}
    (h : InBounds p c) : InBounds p (qoe_cache_down un c) := by
  unfold qoe_cache_down
  split_ifs <;> exact h

lemma qoe_cache_up_bounds {p : PlannerParams} {un : List String} {c : ResourceConfig}
    (h : InBounds p c) : InBounds p (qoe_cache_up un c) := by
  unfold qoe_cache_up
  split_ifs <;> exact h

lemma qoe_preload_down_bounds {p : PlannerParams} {un : List String} {c : ResourceConfig}
    (h : InBounds p c) : InBounds p (qoe_preload_down un c) := by
  obtain ⟨a1, a2, a3, a4, a5, a6, a7, a8, a9, a10, a11, a12, a13, a14⟩ := h
  unfold qoe_preload_down
  split_ifs
  · exact ⟨a1, a2, a3, a4, a5, a6, a7, a8, a9, a10, a11, a12, le_max_right _ _,
      max_le (by linarith) (by norm_num)⟩
  · exact ⟨a1, a2, a3, a4, a5, a6, a7, a8, a9, a10, a11, a12, a13, a14⟩

lemma qoe_preload_up_bounds {p : PlannerParams} {un : List String} {c : ResourceConfig}
    (h : InBounds p c) : InBounds p (qoe_preload_up un c) := by
  obtain ⟨a1, a2, a3, a4, a5, a6, a7, a8, a9, a10, a11, a12, a13, a14⟩ := h
  unfold qoe_preload_up
  split_ifs
  · exact ⟨a1, a2, a3, a4, a5, a6, a7, a8, a9, a10, a11, a12,
      le_min (by linarith) (by norm_num), min_le_right _ _⟩
  · exact ⟨a1, a2, a3, a4, a5, a6, a7, a8, a9, a10, a11, a12, a13, a14⟩

lemma adopt_qoe_bounds {p : PlannerParams} {un : List String} {c : ResourceConfig}
    (h : InBounds p c) : InBounds p (adopt_qoe_unhealthy_situation un c) := by
  unfold adopt_qoe_unhealthy_situation
  exact qoe_preload_up_bounds (qoe_preload_down_bounds (qoe_cache_up_bounds
    (qoe_cache_down_bounds (qoe_song_up_bounds (qoe_song_down_bounds h)))))

lemma select_best_mem (r : Candidate → ℚ) (l : List Candidate) :
    (select_best r l).1 = none ∨
      ∃ it ∈ l, (select_best r l).1 = some it.config := by
  unfold select_best
  have aux : ∀ (l2 : List Candidate) (acc : Option ResourceConfig × ℚ),
      (l2.foldl (fun acc item =>
        if r item > acc.2 then (some item.config, r item) else acc) acc).1 = acc.1 ∨
      ∃ it ∈ l2, (l2.foldl (fun acc item =>
        if r item > acc.2 then (some item.config, r item) else acc) acc).1 =
          some it.config := by
    intro l2
    induction l2 with
    | nil => intro acc; exact Or.inl rfl
    | cons x tl ih =>
      intro acc
      rw [List.foldl_cons]
      rcases ih (if r x > acc.2 then (some x.config, r x) else acc) with h | ⟨it, hit, he⟩
      · by_cases hc : r x > acc.2
        · refine Or.inr ⟨x, List.mem_cons_self x tl, ?_⟩
          rw [h]
          simp [hc]
        · refine Or.inl ?_
          rw [h]
          simp [hc]
      · exact Or.inr ⟨it, List.mem_cons_of_mem x hit, he⟩
  exact aux l ((none : Option ResourceConfig), (-1 : ℚ))

lemma mem_of_mem_pareto {l : List Candidate} {it : Candidate}
    (h : it ∈ pareto_frontier l) : it ∈ l :=
  List.mem_of_mem_filter h

lemma cpu_candidates_bounds {p : PlannerParams} (cpu_now lat : ℚ)
    {cfg1 : ResourceConfig} (hpc : p.min_cpu ≤ p.max_cpu) (h : InBounds p cfg1) :
    ∀ it ∈ cpu_candidates p cpu_now lat cfg1, InBounds p it.config := by
  intro it hit
  unfold cpu_candidates at hit
  simp only [List.mem_map] at hit
  obtain ⟨delta, _, rfl⟩ := hit
  obtain ⟨a1, a2, a3, a4, a5, a6, a7, a8, a9, a10, a11, a12, a13, a14⟩ := h
  exact ⟨le_max_left _ _, max_le hpc (min_le_left _ _), le_max_left _ _,
    max_le hpc (min_le_left _ _), a5, a6, a7, a8, a9, a10, a11, a12, a13, a14⟩

lemma qos_tail_bounds (p : PlannerParams) (lat : ℚ) (config cfg1 : ResourceConfig)
    (hpc : p.min_cpu ≤ p.max_cpu) (h : InBounds p cfg1) :
    InBounds p (qos_tail p lat config cfg1).2 := by
  show InBounds p ((select_best
      (loop_roi ((config.requests_cpu + config.limits_cpu) / 2)
        ((config.requests_memory + config.limits_memory) / 2) config.replica
        ((cfg1.requests_cpu + cfg1.limits_cpu) / 2) cfg1.requests_memory cfg1.replica)
      (pareto_frontier
        (cpu_candidates p ((cfg1.requests_cpu + cfg1.limits_cpu) / 2) lat cfg1))).1.getD
      cfg1)
  rcases select_best_mem
      (loop_roi ((config.requests_cpu + config.limits_cpu) / 2)
        ((config.requests_memory + config.limits_memory) / 2) config.replica
        ((cfg1.requests_cpu + cfg1.limits_cpu) / 2) cfg1.requests_memory cfg1.replica)
      (pareto_frontier
        (cpu_candidates p ((cfg1.requests_cpu + cfg1.limits_cpu) / 2) lat cfg1))
    with h1 | ⟨it, hit, h1⟩
  · rw [h1]
    exact h
  · rw [h1]
    exact cpu_candidates_bounds _ _ hpc h it (mem_of_mem_pareto hit)

/-- C3 as stated is false: a `qos_warning` cycle with the single flag
`memory_low` lowers `limits.memory` to 256 while leaving `requests.memory` at
512, so the adopted configuration violates `limits ≥ requests`; the Planner
emits it (ROI ≈ 1.25 above the 0.1 threshold) and the driver would adopt it
as the authoritative config on a successful cycle. -/
theorem planner_limits_ge_requests_cex :
    decide_action pSampleLo arMemLow cfgBase =
      some ("qos_warning", ⟨250, 512, 250, 256, 1, 2, 1000, 5⟩) ∧
    (updated_config pSampleLo arMemLow cfgBase).limits_memory <
      (updated_config pSampleLo arMemLow cfgBase).requests_memory := by
  have h1 : adopt_qos_warning_situation pSampleLo ["memory_low"] cfgBase =
      ⟨500, 512, 500, 256, 1, 2, 1000, 5⟩ := by
    simp [adopt_qos_warning_situation, warning_cpu_up, warning_memory_up,
      warning_cpu_down, warning_memory_down, warning_replica_up,
      warning_replica_down, pSampleLo, cfgBase]
    norm_num [max_def]
  have h2 : qos_tail pSampleLo 0 cfgBase
      (⟨500, 512, 500, 256, 1, 2, 1000, 5⟩ : ResourceConfig) =
      (375000 / 300001, ⟨250, 512, 250, 256, 1, 2, 1000, 5⟩) := by
    simp [qos_tail, cpu_candidates, select_best, loop_roi, pareto_frontier,
      dominates, List.map, List.filter, List.foldl, pSampleLo, cfgBase]
    norm_num [min_def, max_def, abs]
  have hd : decide_action pSampleLo arMemLow cfgBase =
      some ("qos_warning", ⟨250, 512, 250, 256, 1, 2, 1000, 5⟩) := by
    simp [decide_action, arMemLow, h1, h2]
    norm_num [pSampleLo]
  refine ⟨hd, ?_⟩
  simp only [updated_config, hd]
  norm_num

/-- C3 amended: starting from a configuration inside the Knowledge bounds,
every configuration the Planner adopts keeps CPU and memory requests and
limits, replica, song quality and preload depth inside their bounds;
`limits ≥ requests` is NOT maintained (see the counterexample) and
`cache_size` is adjusted without any bound. -/
theorem planner_bounds_amended (p : PlannerParams) (ar : AnalysisResult)
    (config : ResourceConfig) (hpc : p.min_cpu ≤ p.max_cpu)
    (hpm : p.min_memory ≤ p.max_memory) (hpr : p.min_replica ≤ p.max_replica)
    (h : InBounds p config) : InBounds p (updated_config p ar config) := by
  have hqoe : InBounds p (adopt_qoe_unhealthy_situation ar.qoe_unhealthy_metrics config) :=
    adopt_qoe_bounds h
  unfold updated_config decide_action
  by_cases h1 : "self_heal" ∈ ar.adaptation
  · simp only [h1, if_true]
    exact h
  · by_cases hq : "qoe_unhealthy" ∈ ar.adaptation
    · by_cases hw : "qos_warning" ∈ ar.adaptation
      · by_cases hh : "qos_healthy" ∈ ar.adaptation
        · simp [h1, hq, hw, hh]
          exact h
        · by_cases hroi : (qos_tail p ar.latency_avg config
              (adopt_qos_warning_situation p ar.qos_unhealthy_metrics
                (adopt_qoe_unhealthy_situation ar.qoe_unhealthy_metrics config))).1 <
              p.roi_threshold
          · simp [h1, hq, hw, hh, hroi]
            exact h
          · simp [h1, hq, hw, hh, hroi]
            exact qos_tail_bounds p ar.latency_avg config _ hpc
              (adopt_qos_warning_bounds hpc hpm hpr hqoe)
      · by_cases hu : "qos_unhealthy" ∈ ar.adaptation
        · by_cases hh : "qos_healthy" ∈ ar.adaptation
          · simp [h1, hq, hw, hu, hh]
            exact h
          · by_cases hroi : (qos_tail p ar.latency_avg config
                (adopt_qos_unhealthy_situation p ar.qos_unhealthy_metrics
                  (adopt_qoe_unhealthy_situation ar.qoe_unhealthy_metrics config))).1 <
                p.roi_threshold
            · simp [h1, hq, hw, hu, hh, hroi]
              exact h
            · simp [h1, hq, hw, hu, hh, hroi]
              exact qos_tail_bounds p ar.latency_avg config _ hpc
                (adopt_qos_unhealthy_bounds hpc hpm hpr hqoe)
        · simp [h1, hq, hw, hu]
          exact hqoe
    · by_cases hw : "qos_warning" ∈ ar.adaptation
      · by_cases hh : "qos_healthy" ∈ ar.adaptation
        · simp [h1, hq, hw, hh]
          exact h
        · by_cases hroi : (qos_tail p ar.latency_avg config
              (adopt_qos_warning_situation p ar.qos_unhealthy_metrics config)).1 <
              p.roi_threshold
          · simp [h1, hq, hw, hh, hroi]
            exact h
          · simp [h1, hq, hw, hh, hroi]
            exact qos_tail_bounds p ar.latency_avg config _ hpc
              (adopt_qos_warning_bounds hpc hpm hpr h)
      · by_cases hu : "qos_unhealthy" ∈ ar.adaptation
        · by_cases hh : "qos_healthy" ∈ ar.adaptation
          · simp [h1, hq, hw, hu, hh]
            exact h
          · by_cases hroi : (qos_tail p ar.latency_avg config
                (adopt_qos_unhealthy_situation p ar.qos_unhealthy_metrics config)).1 <
                p.roi_threshold
            · simp [h1, hq, hw, hu, hh, hroi]
              exact h
            · simp [h1, hq, hw, hu, hh, hroi]
              exact qos_tail_bounds p ar.latency_avg config _ hpc
                (adopt_qos_unhealthy_bounds hpc hpm hpr h)
        · by_cases hh : "qos_healthy" ∈ ar.adaptation
          · simp [h1, hq, hw, hu, hh]
            exact h
          · by_cases hroi : (qos_tail p ar.latency_avg config config).1 <
                p.roi_threshold
            · simp [h1, hq, hw, hu, hh, hroi]
              exact h
            · simp [h1, hq, hw, hu, hh, hroi]
              exact qos_tail_bounds p ar.latency_avg config config hpc h

/-- Witness for C3 amended: the pure QoE move at the sample parameters stays
inside all bounds. -/
theorem planner_bounds_amended_witness :
    InBounds pSampleLo (updated_config pSampleLo arQoEOnly cfgBase) :=
  planner_bounds_amended pSampleLo arQoEOnly cfgBase
    (by norm_num [pSampleLo]) (by norm_num [pSampleLo]) (by norm_num [pSampleLo])
    (by norm_num [InBounds, pSampleLo, cfgBase])

end SAMS
